import Mathlib

/-!
Verification development for the xbs-api subscription-billing core.

This file shallowly embeds the plan pricing engine
(`src/services/planService.ts`) and the subscription lifecycle service
(`src/services/subscriptionService.ts`) in Lean 4 and proves properties
of the embedded definitions.

Modelling conventions:
* TypeScript numbers holding monetary amounts, quantities and tier
  bounds are modelled as `Int`.
* `undefined` / absent optional values are modelled as `Option`.
* JavaScript `Date` values are modelled as civil timestamps
  (`year`, `month`, `day`, seconds-within-day); all code under
  verification manipulates dates via calendar-field arithmetic
  (`setDate`, `setMonth`, `setFullYear`), which this model reproduces,
  including the overflow behaviour of out-of-range fields.
* Database tables are modelled as lists of rows; a SQL `UPDATE ... WHERE`
  is modelled as a map that rewrites exactly the rows matched by the
  `WHERE` predicate, and a thrown error leaves the store untouched.
* `JSON.stringify`/parse round-trips through the store are identities in
  the model; bookkeeping columns `created_at` / `updated_at` are kept in
  the row and set to the operation instant, mirroring `NOW()`.
-/

namespace Spec2Proof

/-! ### Calendar dates (JavaScript `Date`, civil time) -/

/-- A civil timestamp: year, month (1–12), day (1–daysInMonth) and
seconds within the day.  JavaScript `Date` calendar-field setters are
modelled directly on this representation. -/
structure Date where
  year : Int
  month : Int
  day : Int
  sec : Int
deriving DecidableEq, Repr

/-- Gregorian leap-year rule. -/
def isLeap (y : Int) : Bool :=
  y % 4 = 0 && (y % 100 ≠ 0 || y % 400 = 0)

/-- Days in a month of a given year. -/
def daysInMonth (y m : Int) : Int :=
  if m = 2 then (if isLeap y then 29 else 28)
  else if m = 4 ∨ m = 6 ∨ m = 9 ∨ m = 11 then 30
  else 31

/-- Successor day (calendar increment by one day). -/
def Date.nextDay (d : Date) : Date :=
  if d.day + 1 ≤ daysInMonth d.year d.month then
    { d with day := d.day + 1 }
  else if d.month = 12 then
    { year := d.year + 1, month := 1, day := 1, sec := d.sec }
  else
    { d with month := d.month + 1, day := 1, sec := d.sec }

/-- Add `n` days: the effect of JavaScript
`date.setDate(date.getDate() + n)` for non-negative `n`. -/
def Date.addDays (d : Date) : Nat → Date
  | 0 => d
  | n + 1 => (d.addDays n).nextDay

/-- Normalise a day-of-month overflow the way the JavaScript `Date`
timestamp normalisation does: a day beyond the end of the month rolls
into the following month.  For inputs with `day ≤ 31` a single roll
suffices (every month has at least 28 days). -/
def fixDayOverflow (y m day sec : Int) : Date :=
  if day ≤ daysInMonth y m then ⟨y, m, day, sec⟩
  else if m = 12 then ⟨y + 1, 1, day - daysInMonth y m, sec⟩
  else ⟨y, m + 1, day - daysInMonth y m, sec⟩

/-- JavaScript `date.setMonth(date.getMonth() + n)`: month arithmetic
keeps the day-of-month and lets an invalid day overflow into the next
month (e.g. Jan 31 + 1 month = Mar 2 in a leap year). -/
def Date.addMonthsJS (d : Date) (n : Nat) : Date :=
  let m0 : Int := d.month - 1 + n
  let y := d.year + m0 / 12
  let m := m0 % 12 + 1
  fixDayOverflow y m d.day d.sec

/-- JavaScript `date.setFullYear(date.getFullYear() + n)`: keeps month
and day, overflowing Feb 29 into Mar 1 in a non-leap target year. -/
def Date.addYearsJS (d : Date) (n : Nat) : Date :=
  fixDayOverflow (d.year + n) d.month d.day d.sec

/-- PostgreSQL `timestamp + interval 'n months'`: month arithmetic that
clamps the day to the last valid day of the target month
(Jan 31 + 1 month = Feb 29 in a leap year). -/
def Date.addMonthsPg (d : Date) (n : Nat) : Date :=
  let m0 : Int := d.month - 1 + n
  let y := d.year + m0 / 12
  let m := m0 % 12 + 1
  ⟨y, m, min d.day (daysInMonth y m), d.sec⟩

/-- Boolean `≤` on civil timestamps (the order JavaScript `<=` on `Date`
and SQL timestamp comparison induce). -/
def Date.leb (a b : Date) : Bool :=
  if a.year ≠ b.year then a.year < b.year
  else if a.month ≠ b.month then a.month < b.month
  else if a.day ≠ b.day then a.day < b.day
  else a.sec ≤ b.sec

/-- JavaScript `toUpperCase()` on ASCII strings (currency codes),
character by character.  (Defined directly on the character list so that
it reduces inside the kernel.) -/
def toUpperStr (s : String) : String :=
  ⟨s.data.map Char.toUpper⟩

/-! ### Plan service: types -/

/-- `BillingInterval` from `planService.ts`. -/
inductive BillingInterval
  | day
  | week
  | month
  | year
deriving DecidableEq, Repr

/-- `PricingModel` from `planService.ts`. -/
inductive PricingModel
  | flat
  | per_unit
  | tiered
  | volume
deriving DecidableEq, Repr

/-- `PlanStatus` from `planService.ts`. -/
inductive PlanStatus
  | active
  | archived
  | draft
deriving DecidableEq, Repr

/-- `PriceTier` from `planService.ts`: `up_to = none` means infinity. -/
structure PriceTier where
  up_to : Option Int
  unit_amount : Int
  flat_amount : Option Int
deriving DecidableEq, Repr

/-- `PlanPrice` from `planService.ts`. -/
structure PlanPrice where
  id : String
  currency : String
  unit_amount : Int
  pricing_model : PricingModel
  tiers : Option (List PriceTier)
deriving DecidableEq, Repr

/-- The fields of `Plan` (from `planService.ts`) that the subscription
core reads.  `billing_interval_count` is kept as `Nat`: the database
check constraint and `validatePlanInput` enforce a count of at least 1. -/
structure Plan where
  id : String
  application_id : String
  external_id : Option String
  name : String
  billing_interval : BillingInterval
  billing_interval_count : Nat
  prices : List PlanPrice
  trial_period_days : Int
  status : PlanStatus
  test_mode : Bool
deriving DecidableEq, Repr

/-! ### Plan service: validation (`planService.ts` lines 104–174) -/

/-- Errors thrown by the services (`utils/errors.ts`):
`ValidationError`, `NotFoundError`, `ConflictError`, plus an opaque
internal/database failure. -/
inductive ApiError
  | validation (msg : String)
  | notFound (msg : String)
  | conflict (msg : String)
  | internal (msg : String)
deriving DecidableEq, Repr

/-- `SUPPORTED_CURRENCIES` from `planService.ts`. -/
def SUPPORTED_CURRENCIES : List String :=
  ["NGN", "USD", "GBP", "EUR", "KES", "GHS", "ZAR", "XOF", "XAF", "EGP", "TZS"]

/-- The loop body of `validateTiers`, threading the `lastUpTo`
accumulator (initially 0).  A `null` upper bound is accepted only on the
last tier; finite bounds must strictly increase; `unit_amount` must be
non-negative.  `flat_amount` is never inspected. -/
def validateTiersFrom : List PriceTier → Int → Except ApiError Unit
  | [], _ => .ok ()
  | t :: ts, lastUpTo =>
    if t.unit_amount < 0 then
      .error (.validation "unit_amount must be non-negative")
    else
      match t.up_to with
      | some u =>
        if u ≤ lastUpTo then
          .error (.validation "up_to must be greater than previous tier")
        else
          validateTiersFrom ts u
      | none =>
        if ts = [] then .ok ()
        else .error (.validation "Only the last tier can have up_to = null")

/-- `validateTiers` from `planService.ts` (lines 155–174). -/
def validateTiers (tiers : List PriceTier) : Except ApiError Unit :=
  validateTiersFrom tiers 0

/-- One entry of `CreatePlanInput.prices` (`planService.ts`). -/
structure PriceInput where
  currency : String
  unit_amount : Int
  pricing_model : Option PricingModel
  tiers : Option (List PriceTier)
deriving DecidableEq, Repr

/-- The per-price body of `validatePlanInput` (`planService.ts` lines
121–141): currency must be supported (after uppercasing), `unit_amount`
non-negative, and for `tiered`/`volume` models a non-empty, valid tier
list is mandatory. -/
def validatePriceEntry (p : PriceInput) : Except ApiError Unit :=
  if ¬ SUPPORTED_CURRENCIES.contains (toUpperStr p.currency) then
    .error (.validation "Invalid currency")
  else if p.unit_amount < 0 then
    .error (.validation "unit_amount must be a non-negative number")
  else if p.pricing_model = some .tiered ∨ p.pricing_model = some .volume then
    match p.tiers with
    | none => .error (.validation "Tiers are required for tiered or volume pricing")
    | some [] => .error (.validation "Tiers are required for tiered or volume pricing")
    | some ts => validateTiers ts
  else
    .ok ()

/-- How `planService.create` materialises a validated price entry into a
stored `PlanPrice` (lines 224–231): uppercase the currency and default
the pricing model to `flat`. -/
def mkPlanPrice (pid : String) (p : PriceInput) : PlanPrice :=
  { id := pid
    currency := toUpperStr p.currency
    unit_amount := p.unit_amount
    pricing_model := p.pricing_model.getD .flat
    tiers := p.tiers }

/-! ### Plan service: price calculation (`planService.ts` lines 491–542) -/

/-- `getPriceForCurrency` from `planService.ts`: exact match after
uppercasing, `none` when absent. -/
def getPriceForCurrency (plan : Plan) (currency : String) : Option PlanPrice :=
  plan.prices.find? (fun p => decide (p.currency = toUpperStr currency))

/-- The `tiered` (graduated) loop of `calculatePrice`: each iteration
takes `min remaining tierLimit` units where `tierLimit` is the tier's own
`up_to` bound (`remaining` for the terminal `null` tier), adds the tier's
flat surcharge (adding 0 when absent or zero, matching the JS truthiness
guard), and breaks once `remaining ≤ 0`. -/
def tieredLoop : List PriceTier → Int → Int → Int
  | [], _, total => total
  | t :: ts, remaining, total =>
    let tierLimit := match t.up_to with | none => remaining | some u => u
    let unitsInTier := min remaining tierLimit
    let total := total + unitsInTier * t.unit_amount + t.flat_amount.getD 0
    let remaining := remaining - unitsInTier
    if remaining ≤ 0 then total else tieredLoop ts remaining total

/-- The `volume` loop of `calculatePrice`: the first tier whose bound is
infinite or at least the quantity prices every unit; `none` when the
quantity exceeds every finite bound. -/
def volumeLoop : List PriceTier → Int → Option Int
  | [], _ => none
  | t :: ts, q =>
    match t.up_to with
    | none => some (q * t.unit_amount + t.flat_amount.getD 0)
    | some u =>
      if q ≤ u then some (q * t.unit_amount + t.flat_amount.getD 0)
      else volumeLoop ts q

/-- `calculatePrice` from `planService.ts` (lines 498–542).  A missing
tier list on a `tiered`/`volume` price, or a `volume` quantity beyond
every finite bound, falls through to the trailing
`unit_amount * quantity` return. -/
def calculatePrice (price : PlanPrice) (quantity : Int) : Int :=
  if price.pricing_model = .flat then price.unit_amount
  else if price.pricing_model = .per_unit then price.unit_amount * quantity
  else
    match price.pricing_model, price.tiers with
    | .tiered, some ts => tieredLoop ts quantity 0
    | .volume, some ts => (volumeLoop ts quantity).getD (price.unit_amount * quantity)
    | _, _ => price.unit_amount * quantity

/-- Modelled from the spec: the graduated-tier walk as section 4.2
describes it — each tier consumes at most `up_to − previous_up_to` units
(all remaining units for the terminal `null` tier) at its unit price,
its flat surcharge applies only when at least one unit fell in the tier,
and the walk stops once the quantity is exhausted.  Used only to compare
the source's `calculatePrice` against the specified semantics. -/
def specGraduatedFrom : List PriceTier → Int → Int → Int
  | [], _, _ => 0
  | t :: ts, prev, remaining =>
    if remaining ≤ 0 then 0
    else
      let cap := match t.up_to with | none => remaining | some u => u - prev
      let units := min remaining cap
      units * t.unit_amount +
        (if 0 < units then t.flat_amount.getD 0 else 0) +
        specGraduatedFrom ts (t.up_to.getD prev) (remaining - units)

/-- Modelled from the spec: graduated pricing over a tier list. -/
def specGraduated (tiers : List PriceTier) (quantity : Int) : Int :=
  specGraduatedFrom tiers 0 quantity

/-! ### Subscription service: types (`subscriptionService.ts` lines 29–109) -/

/-- `SubscriptionStatus` from `subscriptionService.ts`. -/
inductive SubscriptionStatus
  | trialing
  | active
  | past_due
  | paused
  | canceled
  | unpaid
  | incomplete
deriving DecidableEq, Repr

/-- `CancellationReason` from `subscriptionService.ts`. -/
inductive CancellationReason
  | customer_request
  | payment_failure
  | plan_change
  | fraud
  | other
deriving DecidableEq, Repr

/-- `SubscriptionItem` from `subscriptionService.ts`. -/
structure SubscriptionItem where
  id : String
  plan_id : String
  price_id : String
  quantity : Int
deriving DecidableEq, Repr

/-- Metadata bags are opaque to the core; modelled as association lists. -/
abbrev Metadata := List (String × String)

/-- The stored subscription row (`subscriptionService.ts` lines 52–76,
matching migration `018_create_subscriptions.sql`). -/
structure Subscription where
  id : String
  application_id : String
  customer_id : String
  external_id : Option String
  status : SubscriptionStatus
  items : List SubscriptionItem
  currency : String
  current_period_start : Date
  current_period_end : Date
  trial_start : Option Date
  trial_end : Option Date
  cancel_at : Option Date
  canceled_at : Option Date
  cancellation_reason : Option CancellationReason
  cancel_at_period_end : Bool
  pause_start : Option Date
  pause_end : Option Date
  billing_cycle_anchor : Date
  metadata : Metadata
  test_mode : Bool
  created_at : Date
  updated_at : Date
deriving DecidableEq, Repr

/-- The `customers` rows that `customerService.getById` reads: the
lookup is scoped by application and mode and skips soft-deleted rows. -/
structure Customer where
  id : String
  application_id : String
  test_mode : Bool
  deleted : Bool
deriving DecidableEq, Repr

/-- `CreateSubscriptionInput` from `subscriptionService.ts`. -/
structure CreateSubscriptionInput where
  customer_id : String
  plan_id : String
  external_id : Option String
  currency : Option String
  quantity : Option Int
  trial_period_days : Option Int
  trial_end : Option Date
  billing_cycle_anchor : Option Date
  metadata : Option Metadata
deriving DecidableEq, Repr

/-- `UpdateSubscriptionInput` from `subscriptionService.ts`. -/
structure UpdateSubscriptionInput where
  external_id : Option String
  quantity : Option Int
  metadata : Option Metadata
deriving DecidableEq, Repr

/-- The subscriptions table. -/
abbrev Store := List Subscription

/-! ### Store and lookup helpers -/

/-- JavaScript string truthiness on an optional string: the empty string
is falsy (`input.external_id || null` stores `null` for it). -/
def strOpt (o : Option String) : Option String :=
  match o with
  | some s => if s = "" then none else some s
  | none => none

/-- The tenant+mode row key every scoped subscription query uses:
`WHERE id = $1 AND application_id = $2 AND test_mode = $3`. -/
def keyPred (appId sid : String) (mode : Bool) (r : Subscription) : Bool :=
  decide (r.id = sid ∧ r.application_id = appId ∧ r.test_mode = mode)

/-- A SQL `UPDATE ... WHERE p` over the table: rewrites exactly the rows
matched by `p`. -/
def updateWhere (p : Subscription → Bool) (f : Subscription → Subscription)
    (store : Store) : Store :=
  store.map fun r => if p r then f r else r

/-- `customerService.getById` (scoped, excluding soft-deleted rows). -/
def customerGetById (customers : List Customer) (appId cid : String)
    (mode : Bool) : Except ApiError Customer :=
  match customers.find? (fun c =>
      decide (c.id = cid ∧ c.application_id = appId ∧ c.test_mode = mode ∧
        c.deleted = false)) with
  | none => .error (.notFound "Customer not found")
  | some c => .ok c

/-- `planService.getById` (scoped; archived plans excluded unless
`includeArchived`). -/
def planGetById (plans : List Plan) (appId pid : String) (mode : Bool)
    (includeArchived : Bool) : Except ApiError Plan :=
  match plans.find? (fun p =>
      decide (p.id = pid ∧ p.application_id = appId ∧ p.test_mode = mode ∧
        (includeArchived = true ∨ p.status ≠ .archived))) with
  | none => .error (.notFound "Plan not found")
  | some p => .ok p

/-- `subscriptionService.getById` (lines 292–308): scoped read, no write. -/
def getById (appId sid : String) (mode : Bool) (store : Store) :
    Except ApiError Subscription :=
  match store.find? (keyPred appId sid mode) with
  | none => .error (.notFound "Subscription not found")
  | some r => .ok r

/-! ### Period calculation (`subscriptionService.ts` lines 114–137) -/

/-- `calculatePeriodEnd`: adds the billing interval to `start` using the
JavaScript `Date` calendar setters (`setDate` / `setMonth` /
`setFullYear`), so month and year addition overflow an invalid
day-of-month into the following month rather than clamping. -/
def calculatePeriodEnd (start : Date) (interval : BillingInterval)
    (intervalCount : Nat) : Date :=
  match interval with
  | .day => start.addDays intervalCount
  | .week => start.addDays (7 * intervalCount)
  | .month => start.addMonthsJS intervalCount
  | .year => start.addYearsJS intervalCount

/-- The period addition performed inside `activateTrialEnding`'s SQL
`UPDATE`: PostgreSQL `interval` arithmetic, which clamps month and year
addition to the last valid day of the target month (and a year is twelve
months). -/
def pgPeriodEnd (start : Date) (interval : BillingInterval)
    (intervalCount : Nat) : Date :=
  match interval with
  | .day => start.addDays intervalCount
  | .week => start.addDays (7 * intervalCount)
  | .month => start.addMonthsPg intervalCount
  | .year => start.addMonthsPg (12 * intervalCount)

/-! ### Lifecycle operations (`subscriptionService.ts`)

Each operation takes the current instant `now` (for `new Date()` /
`NOW()`) and, where the source calls `uuidv4()`, a fresh identifier as a
parameter.  It returns the caller-visible outcome paired with the store
after the operation. -/

/-- `create` (lines 173–287): validates the customer, the plan (which
must be `active`), external-id uniqueness and the currency price, then
computes the trial window and billing period and inserts the row. -/
def create (customers : List Customer) (plans : List Plan)
    (appId : String) (mode : Bool) (input : CreateSubscriptionInput)
    (defaultCurrency : String) (now : Date) (newItemId newSubId : String)
    (store : Store) : Except ApiError Subscription × Store :=
  match customerGetById customers appId input.customer_id mode with
  | .error e => (.error e, store)
  | .ok _ =>
    match planGetById plans appId input.plan_id mode false with
    | .error e => (.error e, store)
    | .ok plan =>
      if plan.status ≠ .active then
        (.error (.validation "Cannot subscribe to inactive plan"), store)
      else if (match strOpt input.external_id with
          | some eid => store.any (fun r => decide (r.application_id = appId ∧
              r.external_id = some eid ∧ r.test_mode = mode))
          | none => false) then
        (.error (.conflict "Subscription with this external_id already exists"), store)
      else
        let currency := toUpperStr ((strOpt input.currency).getD defaultCurrency)
        match getPriceForCurrency plan currency with
        | none =>
          (.error (.validation "Plan does not have pricing for currency"), store)
        | some price =>
          let billingAnchor := input.billing_cycle_anchor.getD now
          let trialDays := input.trial_period_days.getD plan.trial_period_days
          let checked : Except ApiError
              (Option Date × Option Date × Date × SubscriptionStatus) :=
            match input.trial_end with
            | some te =>
              if te.leb now then
                .error (.validation "trial_end must be in the future")
              else
                .ok (some now, some te, te, .trialing)
            | none =>
              if 0 < trialDays then
                let te := now.addDays trialDays.toNat
                .ok (some now, some te, te, .trialing)
              else
                .ok (none, none, now, .active)
          match checked with
          | .error e => (.error e, store)
          | .ok (trialStart, trialEnd, periodStart, status) =>
            let periodEnd := calculatePeriodEnd periodStart
              plan.billing_interval plan.billing_interval_count
            let quantity := match input.quantity with
              | some q => if q = 0 then 1 else q
              | none => 1
            let row : Subscription :=
              { id := newSubId
                application_id := appId
                customer_id := input.customer_id
                external_id := strOpt input.external_id
                status := status
                items := [⟨newItemId, plan.id, price.id, quantity⟩]
                currency := currency
                current_period_start :=
                  if status = .trialing then now else periodStart
                current_period_end :=
                  if status = .trialing then trialEnd.getD periodEnd else periodEnd
                trial_start := trialStart
                trial_end := trialEnd
                cancel_at := none
                canceled_at := none
                cancellation_reason := none
                cancel_at_period_end := false
                pause_start := none
                pause_end := none
                billing_cycle_anchor := billingAnchor
                metadata := input.metadata.getD []
                test_mode := mode
                created_at := now
                updated_at := now }
            (.ok row, store ++ [row])

/-- The field merge `update` performs (lines 363–384): `external_id`
whenever present, `quantity` rewritten into every item, `metadata`
whenever present, plus `updated_at = NOW()`. -/
def applyUpdatePatch (input : UpdateSubscriptionInput) (now : Date)
    (r : Subscription) : Subscription :=
  let r1 := match input.external_id with
    | some eid => { r with external_id := some eid }
    | none => r
  let r2 := match input.quantity with
    | some q =>
      { r1 with
        items := r1.items.map fun (it : SubscriptionItem) =>
          { it with quantity := q } }
    | none => r1
  let r3 := match input.metadata with
    | some m => { r2 with metadata := m }
    | none => r2
  { r3 with updated_at := now }

/-- `update` (lines 334–397): rejects canceled subscriptions and
conflicting external ids, then writes the patched row. -/
def updateSub (appId sid : String) (mode : Bool)
    (input : UpdateSubscriptionInput) (now : Date) (store : Store) :
    Except ApiError Subscription × Store :=
  match getById appId sid mode store with
  | .error e => (.error e, store)
  | .ok existing =>
    if existing.status = .canceled then
      (.error (.validation "Cannot update canceled subscription"), store)
    else if (match input.external_id with
        | some eid => decide (eid ≠ "" ∧ existing.external_id ≠ some eid) &&
            store.any (fun r => decide (r.application_id = appId ∧
              r.external_id = some eid ∧ r.test_mode = mode ∧ r.id ≠ sid))
        | none => false) then
      (.error (.conflict "Subscription with this external_id already exists"), store)
    else
      (.ok (applyUpdatePatch input now existing),
        updateWhere (keyPred appId sid mode) (applyUpdatePatch input now) store)

/-- `changePlan` (lines 402–477): only `active`/`trialing`
subscriptions, new plan must be `active` and price the pinned currency;
the item keeps its id and quantity (with `|| 1` defaulting) and the
period is reset only for `immediate`. -/
def changePlan (plans : List Plan) (appId sid : String) (mode : Bool)
    (newPlanId : String) (immediate : Bool) (now : Date)
    (newItemId : String) (store : Store) :
    Except ApiError Subscription × Store :=
  match getById appId sid mode store with
  | .error e => (.error e, store)
  | .ok existing =>
    if existing.status ≠ .active ∧ existing.status ≠ .trialing then
      (.error (.validation "Can only change plan for active or trialing subscriptions"), store)
    else
      match planGetById plans appId newPlanId mode false with
      | .error e => (.error e, store)
      | .ok newPlan =>
        if newPlan.status ≠ .active then
          (.error (.validation "Cannot change to inactive plan"), store)
        else
          match getPriceForCurrency newPlan existing.currency with
          | none =>
            (.error (.validation "New plan does not support currency"), store)
          | some price =>
            let itemId := match existing.items.head? with
              | some it => if it.id = "" then newItemId else it.id
              | none => newItemId
            let quantity := match existing.items.head? with
              | some it => if it.quantity = 0 then 1 else it.quantity
              | none => 1
            let items : List SubscriptionItem :=
              [⟨itemId, newPlan.id, price.id, quantity⟩]
            let ps := if immediate then now else existing.current_period_start
            let pe := if immediate then
                calculatePeriodEnd now newPlan.billing_interval
                  newPlan.billing_interval_count
              else existing.current_period_end
            let f : Subscription → Subscription := fun r =>
              { r with
                items := items
                current_period_start := ps
                current_period_end := pe
                updated_at := now }
            (.ok (f existing), updateWhere (keyPred appId sid mode) f store)

/-- `cancel` (lines 482–551): rejects already-canceled subscriptions;
`at_period_end` (default `true`) schedules the cancellation at the
snapshot's `current_period_end`, otherwise cancels immediately. -/
def cancel (appId sid : String) (mode : Bool)
    (atPeriodEndOpt : Option Bool) (reasonOpt : Option CancellationReason)
    (now : Date) (store : Store) : Except ApiError Subscription × Store :=
  match getById appId sid mode store with
  | .error e => (.error e, store)
  | .ok existing =>
    if existing.status = .canceled then
      (.error (.validation "Subscription is already canceled"), store)
    else
      let atPeriodEnd := atPeriodEndOpt.getD true
      let reason := reasonOpt.getD .customer_request
      let f : Subscription → Subscription :=
        if atPeriodEnd then fun r =>
          { r with
            cancel_at_period_end := true
            cancel_at := some existing.current_period_end
            cancellation_reason := some reason
            updated_at := now }
        else fun r =>
          { r with
            status := .canceled
            canceled_at := some now
            cancel_at := some now
            cancellation_reason := some reason
            updated_at := now }
      (.ok (f existing), updateWhere (keyPred appId sid mode) f store)

/-- `reactivate` (lines 556–584): only a non-canceled subscription with
`cancel_at_period_end` set; clears the three cancellation fields. -/
def reactivate (appId sid : String) (mode : Bool) (now : Date)
    (store : Store) : Except ApiError Subscription × Store :=
  match getById appId sid mode store with
  | .error e => (.error e, store)
  | .ok existing =>
    if existing.status = .canceled then
      (.error (.validation "Cannot reactivate fully canceled subscription"), store)
    else if existing.cancel_at_period_end = false then
      (.error (.validation "Subscription is not pending cancellation"), store)
    else
      let f : Subscription → Subscription := fun r =>
        { r with
          cancel_at_period_end := false
          cancel_at := none
          cancellation_reason := none
          updated_at := now }
      (.ok (f existing), updateWhere (keyPred appId sid mode) f store)

/-- `pause` (lines 589–623): only `active` subscriptions; a provided
`resume_at` must lie strictly in the future. -/
def pause (appId sid : String) (mode : Bool) (resumeAt : Option Date)
    (now : Date) (store : Store) : Except ApiError Subscription × Store :=
  match getById appId sid mode store with
  | .error e => (.error e, store)
  | .ok existing =>
    if existing.status ≠ .active then
      (.error (.validation "Can only pause active subscriptions"), store)
    else if (match resumeAt with
        | some ra => ra.leb now
        | none => false) then
      (.error (.validation "resume_at must be in the future"), store)
    else
      let f : Subscription → Subscription := fun r =>
        { r with
          status := .paused
          pause_start := some now
          pause_end := resumeAt
          updated_at := now }
      (.ok (f existing), updateWhere (keyPred appId sid mode) f store)

/-- `resume` (lines 628–669): only `paused` subscriptions; recomputes a
fresh period from `now` using the current plan (fetched with
`includeArchived = true`) and clears the pause window.  An empty items
list makes the source dereference `items[0]` and crash; modelled as an
internal failure without a write. -/
def resume (plans : List Plan) (appId sid : String) (mode : Bool)
    (now : Date) (store : Store) : Except ApiError Subscription × Store :=
  match getById appId sid mode store with
  | .error e => (.error e, store)
  | .ok existing =>
    if existing.status ≠ .paused then
      (.error (.validation "Subscription is not paused"), store)
    else
      match existing.items.head? with
      | none => (.error (.internal "subscription has no items"), store)
      | some item =>
        match planGetById plans appId item.plan_id mode true with
        | .error e => (.error e, store)
        | .ok plan =>
          let periodEnd := calculatePeriodEnd now plan.billing_interval
            plan.billing_interval_count
          let f : Subscription → Subscription := fun r =>
            { r with
              status := .active
              pause_start := none
              pause_end := none
              current_period_start := now
              current_period_end := periodEnd
              updated_at := now }
          (.ok (f existing), updateWhere (keyPred appId sid mode) f store)

/-- The `WHERE` clause of `activateTrialEnding`'s `UPDATE`: the row is
selected by id alone plus `status = 'trialing' AND trial_end <= NOW()` —
there is no `application_id` or `test_mode` condition. -/
def trialDuePred (sid : String) (now : Date) (r : Subscription) : Bool :=
  decide (r.id = sid ∧ r.status = .trialing) &&
    (match r.trial_end with
     | some te => te.leb now
     | none => false)

/-- `activateTrialEnding` (lines 758–787): a single unscoped `UPDATE`
that activates a due trialing subscription, setting the period to
`[trial_end, trial_end + plan interval)` via PostgreSQL interval
arithmetic.  When no row matches it returns `none` without touching the
store.  When the plan subselect yields no row (missing plan or empty
items) the computed period end is SQL `NULL` and the `NOT NULL`
constraint aborts the statement: modelled as an internal failure with no
write. -/
def activateTrialEnding (plans : List Plan) (sid : String) (now : Date)
    (store : Store) : Except ApiError (Option Subscription) × Store :=
  match store.find? (trialDuePred sid now) with
  | none => (.ok none, store)
  | some r =>
    match r.items.head? with
    | none => (.error (.internal "null current_period_end"), store)
    | some item =>
      match plans.find? (fun p => decide (p.id = item.plan_id)) with
      | none => (.error (.internal "null current_period_end"), store)
      | some plan =>
        let f : Subscription → Subscription := fun row =>
          { row with
            status := .active
            current_period_start := row.trial_end.getD row.current_period_start
            current_period_end :=
              (row.trial_end.map fun te =>
                pgPeriodEnd te plan.billing_interval
                  plan.billing_interval_count).getD row.current_period_end
            updated_at := now }
        (.ok (some (f r)), updateWhere (trialDuePred sid now) f store)

/-! ### Concrete fixtures used by the theorems -/

/-- The spec scenario tier list: `[up_to 100 at 0, infinite at 30]`. -/
def scenarioTiers : List PriceTier := [⟨some 100, 0, none⟩, ⟨none, 30, none⟩]

/-- A tiered price over `scenarioTiers`. -/
def scenarioPrice : PlanPrice := ⟨"pr_s", "USD", 0, .tiered, some scenarioTiers⟩

/-- Two finite graduated tiers: the first 10 units free, units 11–20 at
1 per unit. -/
def twoBandTiers : List PriceTier := [⟨some 10, 0, none⟩, ⟨some 20, 1, none⟩]

/-- A tiered price over `twoBandTiers`. -/
def twoBandPrice : PlanPrice := ⟨"pr_b", "USD", 0, .tiered, some twoBandTiers⟩

/-- A flat USD price of 5000 minor units. -/
def usdFlatPrice : PlanPrice := ⟨"pr1", "USD", 5000, .flat, none⟩

/-- A monthly plan with the flat USD price, no trial. -/
def monthlyPlan : Plan :=
  ⟨"pl1", "app", none, "Basic", .month, 1, [usdFlatPrice], 0, .active, false⟩

/-- A live-mode customer of application `app`. -/
def sampleCustomer : Customer := ⟨"cu1", "app", false, false⟩

/-- 2024-01-31T00:00:00Z. -/
def jan31 : Date := ⟨2024, 1, 31, 0⟩

/-- Create input: customer `cu1`, plan `pl1`, USD, no trial. -/
def noTrialInput : CreateSubscriptionInput :=
  ⟨"cu1", "pl1", none, some "USD", none, none, none, none, none⟩

/-- Create input: customer `cu1`, plan `pl1`, USD, 14-day trial. -/
def trialInput : CreateSubscriptionInput :=
  ⟨"cu1", "pl1", none, some "USD", none, some 14, none, none, none⟩

/-- Surcharge-bearing tiers: first tier carries `flat_amount = 200`. -/
def flatSurTiers : List PriceTier := [⟨some 100, 5, some 200⟩, ⟨none, 3, none⟩]

/-- A tiered price over `flatSurTiers`. -/
def flatSurTiered : PlanPrice := ⟨"pr_f", "USD", 7, .tiered, some flatSurTiers⟩

/-- A volume price over `flatSurTiers`. -/
def flatSurVolume : PlanPrice := ⟨"pr_g", "USD", 7, .volume, some flatSurTiers⟩

/-- A single validated tier carrying a negative flat surcharge, which
`validateTiers` never inspects. -/
def negFlatTiers : List PriceTier := [⟨some 100, 0, some (-50)⟩]

/-- A tiered price input over `negFlatTiers`. -/
def negFlatInput : PriceInput := ⟨"USD", 0, some .tiered, some negFlatTiers⟩

/-! ### Helper lemmas on tier validation and the pricing loops -/

/-- Inversion for one step of `validateTiers`: a successful run gives a
non-negative unit amount and either a strictly larger finite bound with
the tail validated from it, or a terminal infinite tier. -/
theorem validateTiersFrom_cons {t : PriceTier} {ts : List PriceTier} {last : Int}
    (h : validateTiersFrom (t :: ts) last = .ok ()) :
    0 ≤ t.unit_amount ∧
      ((∃ u, t.up_to = some u ∧ last < u ∧ validateTiersFrom ts u = .ok ()) ∨
        (t.up_to = none ∧ ts = [])) := by
  unfold validateTiersFrom at h
  by_cases hua : t.unit_amount < 0
  · simp [hua] at h
  · refine ⟨not_lt.mp hua, ?_⟩
    rcases hu : t.up_to with _ | u
    · right
      rw [hu] at h
      simp only [hua, if_false] at h
      by_cases hts : ts = []
      · exact ⟨rfl, hts⟩
      · simp [hts] at h
    · left
      rw [hu] at h
      simp only [hua, if_false] at h
      by_cases hle : u ≤ last
      · simp [hle] at h
      · exact ⟨u, rfl, not_le.mp hle, by simpa [hle] using h⟩

/-- Under a validated tier list with non-negative flat surcharges, the
graduated loop never drives a non-negative running total negative. -/
theorem tieredLoop_nonneg :
    ∀ (ts : List PriceTier) (last rem total : Int),
      validateTiersFrom ts last = .ok () → 0 ≤ last → 0 ≤ rem → 0 ≤ total →
      (∀ t ∈ ts, 0 ≤ t.flat_amount.getD 0) → 0 ≤ tieredLoop ts rem total
  | [], _, _, _, _, _, _, _, _ => by simpa [tieredLoop]
  | t :: ts, last, rem, total, hv, hlast, hrem, htotal, hflat => by
    obtain ⟨hua, hrest⟩ := validateTiersFrom_cons hv
    have hflat0 : 0 ≤ t.flat_amount.getD 0 := hflat t (List.mem_cons_self t ts)
    have hflats : ∀ x ∈ ts, 0 ≤ x.flat_amount.getD 0 := fun x hx =>
      hflat x (List.mem_cons_of_mem t hx)
    rcases hrest with ⟨u, hu, hlt, hv'⟩ | ⟨hu, hts⟩
    · have h0u : (0 : Int) ≤ u := le_of_lt (lt_of_le_of_lt hlast hlt)
      have hunits : 0 ≤ min rem u := le_min hrem h0u
      have htot' : 0 ≤ total + min rem u * t.unit_amount + t.flat_amount.getD 0 :=
        add_nonneg (add_nonneg htotal (mul_nonneg hunits hua)) hflat0
      have hrem' : 0 ≤ rem - min rem u := sub_nonneg.mpr (min_le_left rem u)
      simp only [tieredLoop, hu]
      by_cases hstop : rem - min rem u ≤ 0
      · simpa [hstop] using htot'
      · simpa [hstop] using
          tieredLoop_nonneg ts u (rem - min rem u)
            (total + min rem u * t.unit_amount + t.flat_amount.getD 0)
            hv' h0u hrem' htot' hflats
    · subst hts
      have htot' : 0 ≤ total + min rem rem * t.unit_amount + t.flat_amount.getD 0 :=
        add_nonneg (add_nonneg htotal (mul_nonneg (by simpa using hrem) hua)) hflat0
      simp only [tieredLoop, hu, min_self, sub_self]
      simpa [tieredLoop] using htot'

/-- Under a validated tier list with non-negative flat surcharges, a
successful volume-tier lookup prices a non-negative quantity
non-negatively. -/
theorem volumeLoop_nonneg :
    ∀ (ts : List PriceTier) (last q x : Int),
      validateTiersFrom ts last = .ok () → 0 ≤ q →
      (∀ t ∈ ts, 0 ≤ t.flat_amount.getD 0) →
      volumeLoop ts q = some x → 0 ≤ x
  | [], _, _, _, _, _, _, h => by simp [volumeLoop] at h
  | t :: ts, last, q, x, hv, hq, hflat, h => by
    obtain ⟨hua, hrest⟩ := validateTiersFrom_cons hv
    have hflat0 : 0 ≤ t.flat_amount.getD 0 := hflat t (List.mem_cons_self t ts)
    have hval : 0 ≤ q * t.unit_amount + t.flat_amount.getD 0 :=
      add_nonneg (mul_nonneg hq hua) hflat0
    rcases hu : t.up_to with _ | u
    · simp only [volumeLoop, hu, Option.some.injEq] at h
      omega
    · simp only [volumeLoop, hu] at h
      by_cases hle : q ≤ u
      · rw [if_pos hle, Option.some.injEq] at h
        omega
      · rw [if_neg hle] at h
        rcases hrest with ⟨u', hu', _, hv'⟩ | ⟨hu', _⟩
        · exact volumeLoop_nonneg ts u' q x hv' hq
            (fun y hy => hflat y (List.mem_cons_of_mem t hy)) h
        · rw [hu] at hu'
          cases hu'

/-! ### Claims -/

/-- **C1.** The claim's own two-tier scenario does hold
(`calculatePrice` on tiers `[up_to 100 at 0, null at 30]` with quantity
150 gives 1500), but the general rule it states — each tier is charged
for at most `up_to − previous up_to` units — is violated by the code:
the graduated loop uses the tier's absolute `up_to` bound as its
capacity (`min(remaining, up_to)`) instead of the band width.  On the
`validateTiers`-accepted tiers `[up_to 10 at 0, up_to 20 at 1]` with
quantity 25, the code charges the second tier for
`min(25 − 10, 20) = 15` units, yielding 15, while charging each tier at
most its band width (10 units here) yields 10, as the spec-modelled
`specGraduated` computes.  The terminal-null two-tier scenario masks the
bug because there the second tier's capacity is `remaining` anyway. -/
theorem C1_tiered_band_capacity :
    calculatePrice scenarioPrice 150 = 1500 ∧
    validateTiers twoBandTiers = .ok () ∧
    calculatePrice twoBandPrice 25 = 15 ∧
    specGraduated twoBandTiers 25 = 10 :=
  ⟨rfl, rfl, rfl, rfl⟩

/-- **C2.** `calculatePeriodEnd` does not clamp month addition to the
last valid day of the target month: it reproduces JavaScript `setMonth`
semantics, where Jan 31 + 1 month overflows to Mar 2 in a leap year.
Creating a subscription with no trial at 2024-01-31T00:00:00Z on a
monthly plan gives status `active` and
`current_period_start = 2024-01-31` as the claim says, but
`current_period_end = 2024-03-02`, not the claimed 2024-02-29.  The
repository's own SQL trial-activation path (PostgreSQL interval
arithmetic, `pgPeriodEnd`) does clamp to 2024-02-29, so the two period
calculators in the code disagree on the same input. -/
theorem C2_month_end_not_clamped :
    calculatePeriodEnd jan31 .month 1 = ⟨2024, 3, 2, 0⟩ ∧
    calculatePeriodEnd jan31 .month 1 ≠ ⟨2024, 2, 29, 0⟩ ∧
    pgPeriodEnd jan31 .month 1 = ⟨2024, 2, 29, 0⟩ ∧
    (create [sampleCustomer] [monthlyPlan] "app" false noTrialInput "NGN"
        jan31 "it1" "s1" []).1.map
      (fun s => (s.status, s.current_period_start, s.current_period_end)) =
      .ok (.active, jan31, ⟨2024, 3, 2, 0⟩) :=
  ⟨rfl, by decide, rfl, rfl⟩

/-- **C4 counterexample.** A quantity of zero does *not* always yield
zero for `tiered`/`volume`: when the first (containing) tier carries a
non-zero flat surcharge, `calculatePrice` returns that surcharge.  On
`validateTiers`-accepted tiers whose first tier has `flat_amount = 200`,
both the tiered and the volume price return 200 at quantity 0. -/
theorem C4_zero_quantity_counterexample :
    validateTiers flatSurTiers = .ok () ∧
    calculatePrice flatSurTiered 0 = 200 ∧
    calculatePrice flatSurTiered 0 ≠ 0 ∧
    calculatePrice flatSurVolume 0 = 200 :=
  ⟨rfl, rfl, by decide, rfl⟩

/-- **C4 amended.** For every price whose tier list (when present)
passes `validateTiers` and whose first tier carries no non-zero flat
surcharge, `calculatePrice` at quantity 0 returns 0 for
`per_unit`/`tiered`/`volume` and the base `unit_amount` for `flat`. -/
theorem C4_zero_quantity (price : PlanPrice)
    (hval : ∀ ts, price.tiers = some ts → validateTiers ts = .ok ())
    (hflat : ∀ t ts, price.tiers = some (t :: ts) → t.flat_amount.getD 0 = 0) :
    calculatePrice price 0 =
      if price.pricing_model = .flat then price.unit_amount else 0 := by
  rcases price with ⟨pid, cur, ua, pm, tiers⟩
  cases pm <;> simp only [calculatePrice, mul_zero, reduceCtorEq, if_true, if_false] <;>
    try rfl
  · -- tiered
    rcases tiers with _ | ⟨_ | ⟨t, ts⟩⟩
    · rfl
    · rfl
    · have hv := hval (t :: ts) rfl
      have hf := hflat t ts rfl
      obtain ⟨-, hrest⟩ := validateTiersFrom_cons hv
      simp only at hf
      rcases hrest with ⟨u, hu, hlt, -⟩ | ⟨hu, hts⟩
      · simp [tieredLoop, hu, hf, min_eq_left (le_of_lt hlt)]
      · simp [tieredLoop, hu, hf]
  · -- volume
    rcases tiers with _ | ⟨_ | ⟨t, ts⟩⟩
    · rfl
    · rfl
    · have hv := hval (t :: ts) rfl
      have hf := hflat t ts rfl
      obtain ⟨-, hrest⟩ := validateTiersFrom_cons hv
      simp only at hf
      rcases hrest with ⟨u, hu, hlt, -⟩ | ⟨hu, hts⟩
      · simp [volumeLoop, hu, hf, le_of_lt hlt]
      · simp [volumeLoop, hu, hf]

/-- **C4 witness.** The amended statement at a concrete tiered price
(one validated tier, no surcharge): quantity 0 prices to 0. -/
theorem C4_zero_quantity_witness :
    calculatePrice ⟨"w4", "USD", 9, .tiered, some [⟨some 100, 5, none⟩]⟩ 0 = 0 := by
  have h := C4_zero_quantity ⟨"w4", "USD", 9, .tiered, some [⟨some 100, 5, none⟩]⟩
    (by intro ts h; injection h with h; subst h; rfl)
    (by intro t ts h; injection h with h; injection h with h1 h2; subst h1; rfl)
  simpa using h

/-- **C5 counterexample.** Plan-creation validation never inspects a
tier's `flat_amount`, so a price whose only tier carries
`flat_amount = -50` passes `validatePriceEntry` (and `validateTiers`)
yet `calculatePrice` returns −50 for quantity 1: a validated price can
produce a negative amount. -/
theorem C5_negative_flat_counterexample :
    validatePriceEntry negFlatInput = .ok () ∧
    calculatePrice (mkPlanPrice "pr_n" negFlatInput) 1 = -50 ∧
    calculatePrice (mkPlanPrice "pr_n" negFlatInput) 1 < 0 :=
  ⟨rfl, rfl, by decide⟩

/-- **C5 amended.** For every price entry that passes plan-creation
validation *and whose tier flat surcharges (never validated by the
source) are non-negative*, `calculatePrice` on the stored price returns
a non-negative amount for every non-negative quantity. -/
theorem C5_nonnegative (p : PriceInput) (pid : String) (q : Int)
    (hv : validatePriceEntry p = .ok ()) (hq : 0 ≤ q)
    (hflat : ∀ ts, p.tiers = some ts → ∀ t ∈ ts, 0 ≤ t.flat_amount.getD 0) :
    0 ≤ calculatePrice (mkPlanPrice pid p) q := by
  unfold validatePriceEntry at hv
  split at hv
  · exact Except.noConfusion hv
  · split at hv
    · exact Except.noConfusion hv
    · rename_i hua
      have hua' : 0 ≤ p.unit_amount := not_lt.mp hua
      split at hv
      · rename_i hpm
        split at hv
        · exact Except.noConfusion hv
        · exact Except.noConfusion hv
        · rename_i ts hne htiers
          rcases ts with _ | ⟨t, ts⟩
          · exact absurd rfl hne
          · have hflats := hflat (t :: ts) htiers
            rcases hpm with hpm | hpm
            · simpa [calculatePrice, mkPlanPrice, hpm, htiers] using
                tieredLoop_nonneg (t :: ts) 0 q 0 hv le_rfl hq le_rfl hflats
            · rcases hvol : volumeLoop (t :: ts) q with _ | x
              · simpa [calculatePrice, mkPlanPrice, hpm, htiers, hvol] using
                  mul_nonneg hua' hq
              · simpa [calculatePrice, mkPlanPrice, hpm, htiers, hvol] using
                  volumeLoop_nonneg (t :: ts) 0 q x hv hq hflats hvol
      · rename_i hpm
        rcases p with ⟨cur, ua, pm, tiers⟩
        simp only at hua' hpm
        rcases pm with _ | pm
        · simpa [calculatePrice, mkPlanPrice]
        · cases pm
          · simpa [calculatePrice, mkPlanPrice]
          · simpa [calculatePrice, mkPlanPrice] using mul_nonneg hua' hq
          · exact absurd (Or.inl rfl) hpm
          · exact absurd (Or.inr rfl) hpm

/-- **C5 witness.** The amended statement at a concrete validated tiered
price with non-negative surcharges and quantity 5. -/
theorem C5_nonnegative_witness :
    0 ≤ calculatePrice (mkPlanPrice "w5" ⟨"USD", 2, some .tiered,
      some [⟨some 100, 3, some 7⟩]⟩) 5 :=
  C5_nonnegative ⟨"USD", 2, some .tiered, some [⟨some 100, 3, some 7⟩]⟩ "w5" 5
    rfl (by decide)
    (by intro ts h; injection h with h; subst h; decide)

/-- **C9.** `calculatePrice` on a price whose `pricing_model` is
`tiered` or `volume` but whose tier list is absent raises no error and
falls through to the per-unit fallback `unit_amount * quantity`; yet
plan-creation validation (`validatePriceEntry`) never accepts such a
price, since tiers are mandatory for those models. -/
theorem C9_missing_tiers_fallback :
    (∀ (price : PlanPrice) (q : Int),
      (price.pricing_model = .tiered ∨ price.pricing_model = .volume) →
      price.tiers = none →
      calculatePrice price q = price.unit_amount * q) ∧
    (∀ p : PriceInput,
      (p.pricing_model = some .tiered ∨ p.pricing_model = some .volume) →
      p.tiers = none →
      validatePriceEntry p ≠ .ok ()) := by
  constructor
  · intro price q hpm htiers
    rcases price with ⟨pid, cur, ua, pm, tiers⟩
    simp only at hpm htiers
    subst htiers
    rcases hpm with rfl | rfl <;> rfl
  · intro p hpm htiers hok
    unfold validatePriceEntry at hok
    by_cases hc : toUpperStr p.currency ∈ SUPPORTED_CURRENCIES
    · by_cases hu : p.unit_amount < 0
      · simp [hc, hu] at hok
      · rcases hpm with hpm | hpm <;> simp [hc, hu, hpm, htiers] at hok
    · simp [hc] at hok

/-- **C9 witness.** A `tiered` price without tiers at quantity 5 prices
as `7 * 5 = 35`, and the corresponding price input fails validation. -/
theorem C9_missing_tiers_witness :
    calculatePrice ⟨"w9", "USD", 7, .tiered, none⟩ 5 = 35 ∧
    validatePriceEntry ⟨"USD", 7, some .tiered, none⟩ ≠ .ok () :=
  ⟨by have h := C9_missing_tiers_fallback.1 ⟨"w9", "USD", 7, .tiered, none⟩ 5
        (Or.inl rfl) rfl
      simpa using h,
    C9_missing_tiers_fallback.2 ⟨"USD", 7, some .tiered, none⟩ (Or.inl rfl) rfl⟩

/-- **C3.** Creating a subscription with `trial_period_days = 14` (and
no explicit `trial_end`) yields, whenever the creation succeeds, status
`trialing`, `trial_start` = the creation instant, `trial_end` = the
creation instant plus 14 days, `current_period_start` = the creation
instant and `current_period_end` = `trial_end`. -/
theorem C3_trial_roundtrip
    (customers : List Customer) (plans : List Plan) (appId : String)
    (mode : Bool) (input : CreateSubscriptionInput) (defCur : String)
    (now : Date) (iid sid : String) (store : Store) (sub : Subscription)
    (hte : input.trial_end = none) (htd : input.trial_period_days = some 14)
    (hcr : (create customers plans appId mode input defCur now iid sid
      store).1 = .ok sub) :
    sub.status = .trialing ∧ sub.trial_start = some now ∧
      sub.trial_end = some (now.addDays 14) ∧
      sub.current_period_start = now ∧
      sub.current_period_end = now.addDays 14 := by
  simp only [create, hte, htd] at hcr
  split at hcr
  · simp at hcr
  · split at hcr
    · simp at hcr
    · split at hcr
      · simp at hcr
      · split at hcr
        · simp at hcr
        · split at hcr
          · simp at hcr
          · norm_num at hcr
            obtain rfl := hcr.symm
            exact ⟨rfl, rfl, rfl, rfl, rfl⟩

/-- The concrete subscription produced by the 14-day-trial creation
scenario (customer `cu1`, monthly plan, created 2024-01-31). -/
def trialSub : Subscription :=
  { id := "s1"
    application_id := "app"
    customer_id := "cu1"
    external_id := none
    status := .trialing
    items := [⟨"it1", "pl1", "pr1", 1⟩]
    currency := "USD"
    current_period_start := jan31
    current_period_end := jan31.addDays 14
    trial_start := some jan31
    trial_end := some (jan31.addDays 14)
    cancel_at := none
    canceled_at := none
    cancellation_reason := none
    cancel_at_period_end := false
    pause_start := none
    pause_end := none
    billing_cycle_anchor := jan31
    metadata := []
    test_mode := false
    created_at := jan31
    updated_at := jan31 }

/-- **C3 witness.** The round-trip at a concrete world: a 14-day trial
created at 2024-01-31 produces exactly `trialSub`, whose trial window
ends (and whose period ends) on 2024-02-14. -/
theorem C3_trial_roundtrip_witness :
    (create [sampleCustomer] [monthlyPlan] "app" false trialInput "NGN" jan31
      "it1" "s1" []).1 = .ok trialSub ∧
    (trialSub.status = .trialing ∧ trialSub.trial_start = some jan31 ∧
      trialSub.trial_end = some (jan31.addDays 14) ∧
      trialSub.current_period_start = jan31 ∧
      trialSub.current_period_end = jan31.addDays 14) := by
  have h1 : (create [sampleCustomer] [monthlyPlan] "app" false trialInput
      "NGN" jan31 "it1" "s1" []).1 = .ok trialSub := by rfl
  exact ⟨h1, C3_trial_roundtrip [sampleCustomer] [monthlyPlan] "app" false
    trialInput "NGN" jan31 "it1" "s1" [] trialSub rfl rfl h1⟩

/-! ### Error outcomes leave the store untouched -/

/-- Whether a service call surfaced an error. -/
def isErr {α : Type} : Except ApiError α → Bool
  | .error _ => true
  | .ok _ => false

/-- `create` writes nothing on any error outcome. -/
theorem create_error_frame (cs : List Customer) (ps : List Plan)
    (a : String) (m : Bool) (inp : CreateSubscriptionInput) (dc : String)
    (now : Date) (i1 i2 : String) (st : Store) :
    isErr (create cs ps a m inp dc now i1 i2 st).1 = true →
    (create cs ps a m inp dc now i1 i2 st).2 = st := by
  simp only [create]
  repeat' split
  all_goals simp [isErr]

/-- `update` writes nothing on any error outcome. -/
theorem updateSub_error_frame (a sid : String) (m : Bool)
    (inp : UpdateSubscriptionInput) (now : Date) (st : Store) :
    isErr (updateSub a sid m inp now st).1 = true →
    (updateSub a sid m inp now st).2 = st := by
  simp only [updateSub]
  repeat' split
  all_goals simp [isErr]

/-- `changePlan` writes nothing on any error outcome. -/
theorem changePlan_error_frame (ps : List Plan) (a sid : String) (m : Bool)
    (np : String) (imm : Bool) (now : Date) (iid : String) (st : Store) :
    isErr (changePlan ps a sid m np imm now iid st).1 = true →
    (changePlan ps a sid m np imm now iid st).2 = st := by
  simp only [changePlan]
  repeat' split
  all_goals simp [isErr]

/-- `cancel` writes nothing on any error outcome. -/
theorem cancel_error_frame (a sid : String) (m : Bool)
    (ape : Option Bool) (ro : Option CancellationReason) (now : Date)
    (st : Store) :
    isErr (cancel a sid m ape ro now st).1 = true →
    (cancel a sid m ape ro now st).2 = st := by
  simp only [cancel]
  repeat' split
  all_goals simp [isErr]

/-- `reactivate` writes nothing on any error outcome. -/
theorem reactivate_error_frame (a sid : String) (m : Bool) (now : Date)
    (st : Store) :
    isErr (reactivate a sid m now st).1 = true →
    (reactivate a sid m now st).2 = st := by
  simp only [reactivate]
  repeat' split
  all_goals simp [isErr]

/-- `pause` writes nothing on any error outcome. -/
theorem pause_error_frame (a sid : String) (m : Bool) (ra : Option Date)
    (now : Date) (st : Store) :
    isErr (pause a sid m ra now st).1 = true →
    (pause a sid m ra now st).2 = st := by
  simp only [pause]
  repeat' split
  all_goals simp [isErr]

/-- `resume` writes nothing on any error outcome. -/
theorem resume_error_frame (ps : List Plan) (a sid : String) (m : Bool)
    (now : Date) (st : Store) :
    isErr (resume ps a sid m now st).1 = true →
    (resume ps a sid m now st).2 = st := by
  simp only [resume]
  repeat' split
  all_goals simp [isErr]

/-- **C6.** Every lifecycle operation short-circuits on a failed
precondition: whenever `create`, `update`, `changePlan`, `cancel`,
`reactivate`, `pause` or `resume` returns an error, the store is exactly
the store it was given — no write happened.  Moreover failed
preconditions surface as caller-visible errors rather than silent
no-ops: cancelling an already-canceled subscription and pausing a
non-active subscription each return the corresponding
`ValidationError`. -/
theorem C6_error_short_circuit :
    (∀ cs ps a m inp dc now i1 i2 st,
      isErr (create cs ps a m inp dc now i1 i2 st).1 = true →
      (create cs ps a m inp dc now i1 i2 st).2 = st) ∧
    (∀ a sid m inp now st,
      isErr (updateSub a sid m inp now st).1 = true →
      (updateSub a sid m inp now st).2 = st) ∧
    (∀ ps a sid m np imm now iid st,
      isErr (changePlan ps a sid m np imm now iid st).1 = true →
      (changePlan ps a sid m np imm now iid st).2 = st) ∧
    (∀ a sid m ape ro now st,
      isErr (cancel a sid m ape ro now st).1 = true →
      (cancel a sid m ape ro now st).2 = st) ∧
    (∀ a sid m now st,
      isErr (reactivate a sid m now st).1 = true →
      (reactivate a sid m now st).2 = st) ∧
    (∀ a sid m ra now st,
      isErr (pause a sid m ra now st).1 = true →
      (pause a sid m ra now st).2 = st) ∧
    (∀ ps a sid m now st,
      isErr (resume ps a sid m now st).1 = true →
      (resume ps a sid m now st).2 = st) ∧
    (∀ a sid m ape ro now (st : Store) ex,
      st.find? (keyPred a sid m) = some ex → ex.status = .canceled →
      (cancel a sid m ape ro now st).1 =
        .error (.validation "Subscription is already canceled")) ∧
    (∀ a sid m ra now (st : Store) ex,
      st.find? (keyPred a sid m) = some ex → ex.status ≠ .active →
      (pause a sid m ra now st).1 =
        .error (.validation "Can only pause active subscriptions")) := by
  refine ⟨create_error_frame, updateSub_error_frame, changePlan_error_frame,
    cancel_error_frame, reactivate_error_frame, pause_error_frame,
    resume_error_frame, ?_, ?_⟩
  · intro a sid m ape ro now st ex hfind hst
    simp only [cancel, getById, hfind, hst, if_true]
  · intro a sid m ra now st ex hfind hst
    simp only [pause, getById, hfind]
    rw [if_pos hst]

/-- A canceled subscription row, used to exercise the precondition
failures. -/
def canceledSub : Subscription := { trialSub with status := .canceled }

/-- **C6 witness.** On a store holding one canceled subscription:
cancelling again errors with the exact validation message and the store
is unchanged, and pausing it errors with its validation message. -/
theorem C6_error_short_circuit_witness :
    isErr (cancel "app" "s1" false none none jan31 [canceledSub]).1 = true ∧
    (cancel "app" "s1" false none none jan31 [canceledSub]).2 = [canceledSub] ∧
    (cancel "app" "s1" false none none jan31 [canceledSub]).1 =
      .error (.validation "Subscription is already canceled") ∧
    (pause "app" "s1" false none jan31 [canceledSub]).1 =
      .error (.validation "Can only pause active subscriptions") := by
  obtain ⟨-, -, -, hca, -, -, -, hcanc, hpna⟩ := C6_error_short_circuit
  exact ⟨by rfl,
    hca "app" "s1" false none none jan31 [canceledSub] (by rfl),
    hcanc "app" "s1" false none none jan31 [canceledSub] canceledSub
      (by rfl) (by rfl),
    hpna "app" "s1" false none jan31 [canceledSub] canceledSub
      (by rfl) (by decide)⟩

/-! ### Reading back through a scoped write -/

/-- A `find?` with predicate `p` after an `UPDATE ... WHERE p` sees the
rewritten row, provided the rewrite preserves `p` (the key fields). -/
theorem find?_updateWhere (p : Subscription → Bool)
    (f : Subscription → Subscription)
    (hp : ∀ r, p r = true → p (f r) = true) :
    ∀ store : Store, (updateWhere p f store).find? p = (store.find? p).map f := by
  intro store
  induction store with
  | nil => rfl
  | cons r rest ih =>
    by_cases hr : p r = true
    · simp only [updateWhere, List.map_cons, if_pos hr]
      rw [List.find?_cons_of_pos _ (hp r hr), List.find?_cons_of_pos _ hr]
      rfl
    · simp only [updateWhere, List.map_cons, if_neg hr]
      rw [List.find?_cons_of_neg _ (by simpa using hr),
        List.find?_cons_of_neg _ (by simpa using hr)]
      exact ih

/-- **C7.** Cancelling with `at_period_end = true` a stored non-canceled
subscription returns it with *exactly* `cancel_at_period_end := true`,
`cancel_at := current_period_end` and the cancellation reason set
(besides the `updated_at` bookkeeping instant); status and every other
field are untouched.  A subsequent `reactivate` on the resulting store
returns the subscription with exactly those three fields cleared
(`false` / `null` / `null`), status and all other fields again
untouched. -/
theorem C7_cancel_reactivate_frame
    (appId sid : String) (mode : Bool) (ro : Option CancellationReason)
    (d1 d2 : Date) (store : Store) (ex : Subscription)
    (hfind : store.find? (keyPred appId sid mode) = some ex)
    (hnc : ex.status ≠ .canceled) :
    (cancel appId sid mode (some true) ro d1 store).1 =
      .ok { ex with
        cancel_at_period_end := true
        cancel_at := some ex.current_period_end
        cancellation_reason := some (ro.getD .customer_request)
        updated_at := d1 } ∧
    (reactivate appId sid mode d2
        (cancel appId sid mode (some true) ro d1 store).2).1 =
      .ok { ex with
        cancel_at_period_end := false
        cancel_at := none
        cancellation_reason := none
        updated_at := d2 } := by
  have hc : cancel appId sid mode (some true) ro d1 store =
      (.ok { ex with
          cancel_at_period_end := true
          cancel_at := some ex.current_period_end
          cancellation_reason := some (ro.getD .customer_request)
          updated_at := d1 },
        updateWhere (keyPred appId sid mode)
          (fun r => { r with
            cancel_at_period_end := true
            cancel_at := some ex.current_period_end
            cancellation_reason := some (ro.getD .customer_request)
            updated_at := d1 }) store) := by
    simp only [cancel, getById, hfind]
    rw [if_neg hnc]
    simp
  refine ⟨by rw [hc], ?_⟩
  rw [hc]
  simp only [reactivate, getById]
  rw [find?_updateWhere (keyPred appId sid mode)
    (fun r => { r with
      cancel_at_period_end := true
      cancel_at := some ex.current_period_end
      cancellation_reason := some (ro.getD .customer_request)
      updated_at := d1 }) (fun r h => h) store, hfind]
  simp only [Option.map]
  rw [if_neg (show ¬({ ex with
      cancel_at_period_end := true
      cancel_at := some ex.current_period_end
      cancellation_reason := some (ro.getD .customer_request)
      updated_at := d1 } : Subscription).status = .canceled from hnc)]
  rfl

/-- An active subscription row pending nothing, used as the C7 witness
starting state. -/
def activeSub : Subscription :=
  { trialSub with
    status := .active
    trial_start := none
    trial_end := none
    current_period_end := ⟨2024, 3, 2, 0⟩ }

/-- **C7 witness.** On a store holding one active subscription:
cancelling at period end returns it with the three cancellation fields
set (and `cancel_at` equal to its period end), and reactivating the
resulting store returns it with the three fields cleared. -/
theorem C7_cancel_reactivate_witness :
    ([activeSub] : Store).find? (keyPred "app" "s1" false) = some activeSub ∧
    (cancel "app" "s1" false (some true) none ⟨2024, 2, 1, 0⟩ [activeSub]).1 =
      .ok { activeSub with
        cancel_at_period_end := true
        cancel_at := some activeSub.current_period_end
        cancellation_reason := some .customer_request
        updated_at := ⟨2024, 2, 1, 0⟩ } ∧
    (reactivate "app" "s1" false ⟨2024, 2, 2, 0⟩
        (cancel "app" "s1" false (some true) none ⟨2024, 2, 1, 0⟩
          [activeSub]).2).1 =
      .ok { activeSub with
        cancel_at_period_end := false
        cancel_at := none
        cancellation_reason := none
        updated_at := ⟨2024, 2, 2, 0⟩ } := by
  have h := C7_cancel_reactivate_frame "app" "s1" false none
    ⟨2024, 2, 1, 0⟩ ⟨2024, 2, 2, 0⟩ [activeSub] activeSub (by rfl) (by decide)
  exact ⟨by rfl, h.1, h.2⟩

/-! ### Trial activation is idempotent -/

/-- The fields `trialDuePred` matches on. -/
theorem trialDuePred_spec {sid : String} {n : Date} {x : Subscription}
    (h : trialDuePred sid n x = true) : x.id = sid ∧ x.status = .trialing := by
  unfold trialDuePred at h
  rw [Bool.and_eq_true, decide_eq_true_eq] at h
  exact ⟨h.1.1, h.1.2⟩

/-- After the activation `UPDATE` rewrites the (unique) due trialing row
with id `sid` to an `active` row, no row with that id is `trialing` any
more, so the `WHERE` clause matches nothing at any later instant. -/
theorem find?_after_activation (sid : String) (now now2 : Date)
    (store : Store) (F : Subscription → Subscription)
    (hF : ∀ r, (F r).status = .active) (r : Subscription)
    (hf : store.find? (trialDuePred sid now) = some r)
    (huniq : ∀ r1 ∈ store, ∀ r2 ∈ store, r1.id = sid → r2.id = sid → r1 = r2) :
    (updateWhere (trialDuePred sid now) F store).find?
      (trialDuePred sid now2) = none := by
  rw [List.find?_eq_none]
  intro x hx hpx
  obtain ⟨y, hy, hgy⟩ := List.mem_map.mp hx
  have hrmem : r ∈ store := List.mem_of_find?_eq_some hf
  have hrpred : trialDuePred sid now r = true := List.find?_some hf
  by_cases hpy : trialDuePred sid now y = true
  · rw [if_pos hpy] at hgy
    subst hgy
    have hstat := (trialDuePred_spec hpx).2
    rw [hF y] at hstat
    cases hstat
  · rw [if_neg hpy] at hgy
    subst hgy
    have hyid := (trialDuePred_spec hpx).1
    have hrid := (trialDuePred_spec hrpred).1
    have hyr : y = r := huniq y hy r hrmem hyid hrid
    subst hyr
    exact hpy hrpred

/-- **C8.** Trial-expiry activation is idempotent: if
`activateTrialEnding` succeeded (transitioning the unique subscription
with that id to `active`), invoking it again on the resulting store — at
any later instant — returns `none` without error and leaves the store
exactly as it was, because the `status = 'trialing'` condition no longer
matches. -/
theorem C8_trial_activation_idempotent
    (plans : List Plan) (sid : String) (now now2 : Date)
    (store store2 : Store) (s : Subscription)
    (huniq : ∀ r1 ∈ store, ∀ r2 ∈ store, r1.id = sid → r2.id = sid → r1 = r2)
    (h1 : activateTrialEnding plans sid now store = (.ok (some s), store2)) :
    activateTrialEnding plans sid now2 store2 = (.ok none, store2) := by
  unfold activateTrialEnding at h1
  split at h1
  · simp at h1
  · rename_i r hf
    split at h1
    · simp at h1
    · rename_i item hh
      split at h1
      · simp at h1
      · rename_i plan hp
        simp only [Prod.mk.injEq, Except.ok.injEq, Option.some.injEq] at h1
        obtain ⟨-, hst2⟩ := h1
        subst hst2
        unfold activateTrialEnding
        rw [find?_after_activation sid now now2 store _ (fun x => rfl) r hf huniq]

/-- **C8 witness.** A concrete trialing subscription due at
2024-02-20: the first activation succeeds and the second returns `none`
and leaves the store unchanged. -/
theorem C8_trial_activation_witness :
    (activateTrialEnding [monthlyPlan] "s1" ⟨2024, 2, 20, 0⟩
        [trialSub]).1.map Option.isSome = .ok true ∧
    activateTrialEnding [monthlyPlan] "s1" ⟨2024, 2, 21, 0⟩
        (activateTrialEnding [monthlyPlan] "s1" ⟨2024, 2, 20, 0⟩
          [trialSub]).2 =
      (.ok none,
        (activateTrialEnding [monthlyPlan] "s1" ⟨2024, 2, 20, 0⟩
          [trialSub]).2) := by
  refine ⟨by rfl, ?_⟩
  exact C8_trial_activation_idempotent [monthlyPlan] "s1" ⟨2024, 2, 20, 0⟩
    ⟨2024, 2, 21, 0⟩ [trialSub]
    (activateTrialEnding [monthlyPlan] "s1" ⟨2024, 2, 20, 0⟩ [trialSub]).2
    { trialSub with
      status := .active
      current_period_start := jan31.addDays 14
      current_period_end := (jan31.addDays 14).addMonthsPg 1
      updated_at := ⟨2024, 2, 20, 0⟩ }
    (by decide) (by rfl)

/-! ### Tenant scoping -/

/-- Rewrite a row's tenant fields (`application_id`, `test_mode`) and
nothing else. -/
def retag (a : String) (m : Bool) (r : Subscription) : Subscription :=
  { r with application_id := a, test_mode := m }

/-- A row's membership in the caller's tenant+mode scope. -/
def inScope (appId : String) (mode : Bool) (r : Subscription) : Prop :=
  r.application_id = appId ∧ r.test_mode = mode

/-- `store2` differs from `store` at most on rows inside the
`(appId, mode)` scope: every out-of-scope row is bit-identical. -/
def scopedFrame (appId : String) (mode : Bool) (store store2 : Store) : Prop :=
  List.Forall₂ (fun r r2 => inScope appId mode r ∨ r2 = r) store store2

/-- An unchanged store trivially satisfies the scoped frame. -/
theorem scopedFrame_refl (a : String) (m : Bool) (store : Store) :
    scopedFrame a m store store :=
  List.forall₂_same.mpr fun _ _ => Or.inr rfl

/-- A write guarded by the tenant+mode key predicate touches only
in-scope rows. -/
theorem scopedFrame_updateWhere (a : String) (m : Bool) (sid : String)
    (f : Subscription → Subscription) (store : Store) :
    scopedFrame a m store (updateWhere (keyPred a sid m) f store) := by
  unfold scopedFrame updateWhere
  induction store with
  | nil => constructor
  | cons r rest ih =>
    simp only [List.map_cons]
    constructor
    · by_cases hr : keyPred a sid m r = true
      · left
        unfold keyPred at hr
        rw [decide_eq_true_eq] at hr
        exact ⟨hr.2.1, hr.2.2⟩
      · right
        rw [if_neg hr]
    · exact ih

/-- `updateWhere` commutes with retagging the rows when the predicate
ignores and the rewrite preserves the tenant fields. -/
theorem updateWhere_map_retag (a : String) (m : Bool)
    (p : Subscription → Bool) (f : Subscription → Subscription)
    (hpred : ∀ r, p (retag a m r) = p r)
    (hcomm : ∀ r, f (retag a m r) = retag a m (f r)) (store : Store) :
    updateWhere p f (store.map (retag a m)) =
      (updateWhere p f store).map (retag a m) := by
  unfold updateWhere
  rw [List.map_map, List.map_map]
  apply List.map_congr_left
  intro r _
  by_cases hr : p r = true
  · simp only [Function.comp, hpred, hr, if_pos, if_true]
    exact hcomm r
  · simp only [Function.comp, hpred, hr, if_neg, if_false]
    rfl

/-- `activateTrialEnding` is oblivious to tenant fields: rewriting every
row's `application_id` and `test_mode` commutes with the whole
operation, outcome included. -/
theorem activate_retag_invariant (plans : List Plan) (sid : String)
    (now : Date) (a : String) (m : Bool) (store : Store) :
    activateTrialEnding plans sid now (store.map (retag a m)) =
      ((activateTrialEnding plans sid now store).1.map
          (Option.map (retag a m)),
        (activateTrialEnding plans sid now store).2.map (retag a m)) := by
  unfold activateTrialEnding
  rw [List.find?_map,
    show (trialDuePred sid now ∘ retag a m) = trialDuePred sid now from
      funext fun r => rfl]
  cases hfr : store.find? (trialDuePred sid now) with
  | none => rfl
  | some r =>
    simp only [Option.map, retag]
    split
    · rfl
    · split
      · rfl
      · simp only [Prod.mk.injEq]
        refine ⟨rfl, ?_⟩
        apply updateWhere_map_retag <;> intro x <;> rfl

/-- A successful scoped read returns a row of the caller's scope. -/
theorem getById_scoped (a sid : String) (m : Bool) (store : Store)
    (r : Subscription) (h : getById a sid m store = .ok r) :
    r.application_id = a ∧ r.test_mode = m := by
  unfold getById at h
  cases hf : store.find? (keyPred a sid m) with
  | none =>
    rw [hf] at h
    exact Except.noConfusion h
  | some x =>
    rw [hf] at h
    simp only [Except.ok.injEq] at h
    subst h
    have hp := List.find?_some hf
    unfold keyPred at hp
    rw [decide_eq_true_eq] at hp
    exact ⟨hp.2.1, hp.2.2⟩

/-- `update` writes only rows in the caller's scope. -/
theorem updateSub_scoped (a sid : String) (m : Bool)
    (inp : UpdateSubscriptionInput) (now : Date) (st : Store) :
    scopedFrame a m st (updateSub a sid m inp now st).2 := by
  simp only [updateSub]
  repeat' split
  all_goals first
    | exact scopedFrame_refl a m st
    | exact scopedFrame_updateWhere a m sid _ st

/-- `changePlan` writes only rows in the caller's scope. -/
theorem changePlan_scoped (ps : List Plan) (a sid : String) (m : Bool)
    (np : String) (imm : Bool) (now : Date) (iid : String) (st : Store) :
    scopedFrame a m st (changePlan ps a sid m np imm now iid st).2 := by
  simp only [changePlan]
  repeat' split
  all_goals first
    | exact scopedFrame_refl a m st
    | exact scopedFrame_updateWhere a m sid _ st

/-- `cancel` writes only rows in the caller's scope. -/
theorem cancel_scoped (a sid : String) (m : Bool) (ape : Option Bool)
    (ro : Option CancellationReason) (now : Date) (st : Store) :
    scopedFrame a m st (cancel a sid m ape ro now st).2 := by
  simp only [cancel]
  repeat' split
  all_goals first
    | exact scopedFrame_refl a m st
    | exact scopedFrame_updateWhere a m sid _ st

/-- `reactivate` writes only rows in the caller's scope. -/
theorem reactivate_scoped (a sid : String) (m : Bool) (now : Date)
    (st : Store) :
    scopedFrame a m st (reactivate a sid m now st).2 := by
  simp only [reactivate]
  repeat' split
  all_goals first
    | exact scopedFrame_refl a m st
    | exact scopedFrame_updateWhere a m sid _ st

/-- `pause` writes only rows in the caller's scope. -/
theorem pause_scoped (a sid : String) (m : Bool) (ra : Option Date)
    (now : Date) (st : Store) :
    scopedFrame a m st (pause a sid m ra now st).2 := by
  simp only [pause]
  repeat' split
  all_goals first
    | exact scopedFrame_refl a m st
    | exact scopedFrame_updateWhere a m sid _ st

/-- `resume` writes only rows in the caller's scope. -/
theorem resume_scoped (ps : List Plan) (a sid : String) (m : Bool)
    (now : Date) (st : Store) :
    scopedFrame a m st (resume ps a sid m now st).2 := by
  simp only [resume]
  repeat' split
  all_goals first
    | exact scopedFrame_refl a m st
    | exact scopedFrame_updateWhere a m sid _ st

/-- `create` only ever adds rows carrying the caller's scope. -/
theorem create_scoped (cs : List Customer) (ps : List Plan) (a : String)
    (m : Bool) (inp : CreateSubscriptionInput) (dc : String) (now : Date)
    (i1 i2 : String) (st : Store) :
    ∀ r ∈ (create cs ps a m inp dc now i1 i2 st).2,
      r ∈ st ∨ (r.application_id = a ∧ r.test_mode = m) := by
  simp only [create]
  repeat' split
  all_goals intro r hr
  all_goals try exact Or.inl hr
  all_goals rcases List.mem_append.mp hr with h | h
  all_goals try exact Or.inl h
  all_goals rw [List.mem_singleton] at h
  all_goals subst h
  all_goals exact Or.inr ⟨rfl, rfl⟩

/-- **C10.** `activateTrialEnding` selects and updates by subscription
id alone — retagging every row's `application_id` and `test_mode`
commutes with the whole operation, so no tenant or mode condition is
involved — while every other subscription operation stays inside the
caller's `(application_id, test_mode)` scope: a successful `getById`
returns a row of that scope, every write operation leaves all
out-of-scope rows bit-identical, and `create` only adds rows carrying
the caller's scope. -/
theorem C10_activation_unscoped_others_scoped :
    (∀ plans sid now a m (store : Store),
      activateTrialEnding plans sid now (store.map (retag a m)) =
        ((activateTrialEnding plans sid now store).1.map
            (Option.map (retag a m)),
          (activateTrialEnding plans sid now store).2.map (retag a m))) ∧
    (∀ a sid m (store : Store) r,
      getById a sid m store = .ok r →
      r.application_id = a ∧ r.test_mode = m) ∧
    (∀ a sid m inp now st,
      scopedFrame a m st (updateSub a sid m inp now st).2) ∧
    (∀ ps a sid m np imm now iid st,
      scopedFrame a m st (changePlan ps a sid m np imm now iid st).2) ∧
    (∀ a sid m ape ro now st,
      scopedFrame a m st (cancel a sid m ape ro now st).2) ∧
    (∀ a sid m now st,
      scopedFrame a m st (reactivate a sid m now st).2) ∧
    (∀ a sid m ra now st,
      scopedFrame a m st (pause a sid m ra now st).2) ∧
    (∀ ps a sid m now st,
      scopedFrame a m st (resume ps a sid m now st).2) ∧
    (∀ cs ps a m inp dc now i1 i2 st,
      ∀ r ∈ (create cs ps a m inp dc now i1 i2 st).2,
        r ∈ st ∨ (r.application_id = a ∧ r.test_mode = m)) :=
  ⟨activate_retag_invariant, getById_scoped, updateSub_scoped,
    changePlan_scoped, cancel_scoped, reactivate_scoped, pause_scoped,
    resume_scoped, create_scoped⟩

/-- **C10 witness.** Retagging the stored trialing subscription to a
foreign tenant and live mode does not stop `activateTrialEnding` from
activating it, while `getById` on a concrete store only ever returns
the caller's row. -/
theorem C10_activation_unscoped_witness :
    (activateTrialEnding [monthlyPlan] "s1" ⟨2024, 2, 20, 0⟩
        (([trialSub] : Store).map (retag "other" true))).1.map
      Option.isSome = .ok true ∧
    (trialSub.application_id = "app" ∧ trialSub.test_mode = false) := by
  obtain ⟨hact, hget, -⟩ := C10_activation_unscoped_others_scoped
  constructor
  · rw [hact [monthlyPlan] "s1" ⟨2024, 2, 20, 0⟩ "other" true [trialSub]]
    rfl
  · exact hget "app" "s1" false [trialSub] trialSub (by rfl)

end Spec2Proof
